import Mathlib

/-!
Verification of the FC3D chunked file-transfer protocol (src/FC3D.py).

Shallow embedding: byte strings are `List Nat` (each entry a byte value),
Python exceptions are an explicit error type carried by `Except`, the file
is a `List Nat` of bytes and the read position an explicit `Nat`.
-/

namespace FC3D

/-- Python exceptions relevant to this program: `ValueError` (raised by
`send_chunk` / `make_checksum_array` on an empty chunk and caught by
`send_file`'s per-chunk handler) and `struct.error` (raised by
`struct.pack` on an out-of-range argument; NOT a subclass of `ValueError`,
hence not caught by `except ValueError`). -/
inductive PyError where
  | valueError
  | structError
deriving DecidableEq, Repr

instance {ε α : Type} [DecidableEq ε] [DecidableEq α] :
    DecidableEq (Except ε α) := fun x y =>
  match x, y with
  | .ok a, .ok b =>
    if h : a = b then .isTrue (by rw [h])
    else .isFalse (by intro hc; cases hc; exact h rfl)
  | .ok _, .error _ => .isFalse (by intro hc; cases hc)
  | .error _, .ok _ => .isFalse (by intro hc; cases hc)
  | .error e, .error f =>
    if h : e = f then .isTrue (by rw [h])
    else .isFalse (by intro hc; cases hc; exact h rfl)

/-- `BUFFERSIZE = 1280` (FC3D.py line 21). -/
def BUFFERSIZE : Nat := 1280

/-- `struct.pack('>I', n)`: the 4 bytes of `n` as an unsigned 32-bit
big-endian integer, most significant byte first.  Raises `struct.error`
unless `0 ≤ n < 2^32`. -/
def struct_pack_I (n : Int) : Except PyError (List Nat) :=
  if 0 ≤ n ∧ n < 2 ^ 32 then
    let m := n.toNat
    .ok [m / 2 ^ 24 % 256, m / 2 ^ 16 % 256, m / 2 ^ 8 % 256, m % 256]
  else
    .error .structError

/-- Left-to-right running exclusive-or of a list of bytes. -/
def xorBytes (l : List Nat) : Nat := l.foldl Nat.xor 0

/-- The checksum loop of `make_checksum_array` (lines 193-197):
`for i in range(data_size+4): checksum ^= data_array[i];
data_array[data_size+4] = checksum` — the write into slot
`data_size + 4` happens inside the loop, the reads are at `i`. -/
def checksum_loop (a : List Nat) (data_size : Nat) : Nat × List Nat :=
  (List.range (data_size + 4)).foldl
    (fun st i =>
      let c := Nat.xor st.1 (st.2.getD i 0)
      (c, st.2.set (data_size + 4) c))
    (0, a)

/-- `make_checksum_array(data, cur_file_pos)` (lines 160-202): append six
ASCII `'0'` bytes (`b'000000'`, value 0x30) to the payload, raise
`ValueError` when the payload is empty (`data_size <= 0`; `data_size` is a
length so it is never negative), pack the offset big-endian, write its four
bytes in reverse order into slots `N..N+3`, run the checksum loop, and put
the terminator `0x83` into slot `N+5`. -/
def make_checksum_array (data : List Nat) (cur_file_pos : Int) :
    Except PyError (List Nat) :=
  let data_array := data ++ [0x30, 0x30, 0x30, 0x30, 0x30, 0x30]
  let data_size := data_array.length - 6
  if data_size = 0 then
    .error .valueError
  else
    match struct_pack_I cur_file_pos with
    | .error e => .error e
    | .ok seek_array =>
      let data_array := data_array.set data_size (seek_array.getD 3 0)
      let data_array := data_array.set (data_size + 1) (seek_array.getD 2 0)
      let data_array := data_array.set (data_size + 2) (seek_array.getD 1 0)
      let data_array := data_array.set (data_size + 3) (seek_array.getD 0 0)
      let data_array := (checksum_loop data_array data_size).2
      let data_array := data_array.set (data_size + 5) 0x83
      .ok data_array

/-- `send_chunk(chunk, cur_file_pos, ...)` (lines 131-157), with the
transport send abstracted away: check the chunk length, raise `ValueError`
when it is 0, otherwise build the frame via `make_checksum_array` (the
datagram is sent only after the frame exists). -/
def send_chunk (chunk : List Nat) (cur_file_pos : Int) :
    Except PyError (List Nat) :=
  let chunk_size := chunk.length
  if chunk_size = 0 then
    .error .valueError
  else
    make_checksum_array chunk cur_file_pos

/-- The mirrored offset field actually written into slots `N..N+3`:
the big-endian bytes of `m` in reverse order (least significant first). -/
def offset_field (m : Nat) : List Nat :=
  [m % 256, m / 2 ^ 8 % 256, m / 2 ^ 16 % 256, m / 2 ^ 24 % 256]

/-- Parse a list of bytes as an unsigned big-endian integer,
most significant byte first. -/
def parse_be_u32 (l : List Nat) : Nat :=
  l.foldl (fun acc b => acc * 256 + b) 0

/-- One window read of `send_file`: `fp.read(BUFFERSIZE)` with the file
at position `pos` returns the next at-most-1280 bytes. -/
def read_window (file : List Nat) (pos : Nat) : List Nat :=
  (file.drop pos).take BUFFERSIZE

/-- Outcome of one window of `send_file`: the frame was sent, or the
window was skipped because `send_chunk` raised `ValueError` and the
`except ValueError` handler caught it. -/
inductive WindowResult where
  | sent (frame : List Nat)
  | skipped
deriving DecidableEq, Repr

/-- The `while True` loop of `send_file` (lines 106-126), parameterized by
the per-chunk action (`send_chunk` in the real program): record
`cur_file_pos = fp.tell()`, read one window, stop on an empty read;
otherwise run the per-chunk action inside `try/except ValueError` — a
`ValueError` is logged and the window skipped, any other exception
propagates and aborts the loop.  The result is the ordered trace of
windows `(offset, chunk, outcome)`.  (The `read_bytes`/percentage progress
print inside the `try` is observational only and not modelled.) -/
def send_file_loop (sender : List Nat → Int → Except PyError (List Nat))
    (file : List Nat) (pos : Nat) :
    Except PyError (List (Nat × List Nat × WindowResult)) :=
  let chunk := read_window file pos
  if h : chunk = [] then
    .ok []
  else
    match sender chunk (pos : Int) with
    | .ok frame =>
      match send_file_loop sender file (pos + chunk.length) with
      | .ok rest => .ok ((pos, chunk, .sent frame) :: rest)
      | .error e => .error e
    | .error .valueError =>
      match send_file_loop sender file (pos + chunk.length) with
      | .ok rest => .ok ((pos, chunk, .skipped) :: rest)
      | .error e => .error e
    | .error .structError => .error .structError
termination_by file.length - pos
decreasing_by
  all_goals
    have h0 : read_window file pos ≠ [] := by assumption
    have h1 : pos < file.length := by
      by_contra hc
      push_neg at hc
      exact h0 (by simp [read_window, List.drop_eq_nil_of_le hc])
    have h2 : 1 ≤ (read_window file pos).length := List.length_pos.mpr h0
    omega

/-- `send_file(filename, ...)` (lines 87-128): run the window loop from
file position 0 with the real `send_chunk`. -/
def send_file (file : List Nat) :
    Except PyError (List (Nat × List Nat × WindowResult)) :=
  send_file_loop send_chunk file 0

/-- The sequence of `(offset, chunk)` windows the `send_file` loop reads:
the pure read-side of the loop, independent of the per-chunk action. -/
def windows (file : List Nat) (pos : Nat) : List (Nat × List Nat) :=
  let chunk := read_window file pos
  if chunk = [] then []
  else (pos, chunk) :: windows file (pos + chunk.length)
termination_by file.length - pos
decreasing_by
  all_goals
    have h0 : read_window file pos ≠ [] := by assumption
    have h1 : pos < file.length := by
      by_contra hc
      push_neg at hc
      exact h0 (by simp [read_window, List.drop_eq_nil_of_le hc])
    have h2 : 1 ≤ (read_window file pos).length := List.length_pos.mpr h0
    omega

/-- A per-chunk action that raises `ValueError` exactly for the window at
offset 1280 (the second window of a 2600-byte file) and otherwise behaves
like `send_chunk` — used to state the spec's Scenario D. -/
def failing_second_sender (c : List Nat) (p : Int) :
    Except PyError (List Nat) :=
  if p = 1280 then .error .valueError else send_chunk c p

/-- Observable transport events: a datagram sent with a given payload, or
one blocking receive of a reply datagram. -/
inductive Event where
  | send (payload : List Nat)
  | recv
deriving DecidableEq, Repr

/-- The ASCII bytes of the literal payload `b"M4001"`. -/
def M4001_payload : List Nat := [0x4D, 0x34, 0x30, 0x30, 0x31]

/-- `log_response` (lines 28-38): one blocking receive of a reply. -/
def log_response_events : List Event := [Event.recv]

/-- `prepare_write` (lines 41-52): send `b"M4001"`, then read one ack. -/
def prepare_write_events : List Event :=
  [Event.send M4001_payload] ++ log_response_events

/-- `send_command` (lines 205-218): call `prepare_write`, then send the
command payload verbatim, then read one ack. -/
def send_command_events (cmd : List Nat) : List Event :=
  prepare_write_events ++ ([Event.send cmd] ++ log_response_events)

lemma set_append_right (l1 l2 : List Nat) (i k : Nat)
    (hik : i = l1.length + k) (x : Nat) :
    (l1 ++ l2).set i x = l1 ++ l2.set k x := by
  subst hik
  rw [List.set_append, if_neg (by omega), Nat.add_sub_cancel_left]

lemma checksum_loop_eq (a : List Nat) (N : Nat) :
    checksum_loop a N =
      (xorBytes (a.take (N + 4)), a.set (N + 4) (xorBytes (a.take (N + 4)))) := by
  have key : ∀ k, k ≤ N + 4 →
      (List.range k).foldl
        (fun st i =>
          let c := Nat.xor st.1 (st.2.getD i 0)
          (c, st.2.set (N + 4) c)) (0, a) =
      (xorBytes (a.take k),
        if k = 0 then a else a.set (N + 4) (xorBytes (a.take k))) := by
    intro k
    induction k with
    | zero => intro _; simp [xorBytes]
    | succ k ih =>
      intro hk
      rw [List.range_succ, List.foldl_append, ih (by omega)]
      have hne : (N + 4) ≠ k := by omega
      have hxz : ∀ n : Nat, Nat.xor n 0 = n := fun n => Nat.xor_zero n
      have hxor : xorBytes (a.take (k + 1)) =
          Nat.xor (xorBytes (a.take k)) (a[k]?.getD 0) := by
        rw [List.take_succ]
        cases hak : a[k]? with
        | none => simp [xorBytes, hak, hxz]
        | some v => simp [xorBytes, List.foldl_append, hak]
      by_cases hk0 : k = 0
      · subst hk0
        simp only [List.foldl_cons, List.foldl_nil, if_pos rfl,
          if_neg (Nat.succ_ne_zero 0)]
        refine Prod.ext ?_ ?_
        · rw [hxor]; simp [xorBytes, List.getD_eq_getElem?_getD]
        · rw [hxor]; simp [xorBytes, List.getD_eq_getElem?_getD]
      · simp only [List.foldl_cons, List.foldl_nil, if_neg hk0,
          if_neg (Nat.succ_ne_zero k)]
        refine Prod.ext ?_ ?_
        · simp [hxor, List.getD_eq_getElem?_getD, List.getElem?_set_ne hne]
        · simp [hxor, List.getD_eq_getElem?_getD, List.getElem?_set_ne hne,
            List.set_set]
  have h4 : N + 4 ≠ 0 := by omega
  have := key (N + 4) le_rfl
  simpa [checksum_loop, if_neg h4] using this

lemma struct_pack_I_ok (p : Int) (h0 : 0 ≤ p) (h32 : p < 2 ^ 32) :
    struct_pack_I p = .ok [p.toNat / 2 ^ 24 % 256, p.toNat / 2 ^ 16 % 256,
      p.toNat / 2 ^ 8 % 256, p.toNat % 256] := by
  unfold struct_pack_I
  rw [if_pos ⟨h0, h32⟩]

/-- Characterization of `make_checksum_array` on valid input: the frame is
payload ++ mirrored offset field ++ running XOR ++ `0x83`. -/
lemma make_checksum_array_ok (data : List Nat) (p : Int)
    (hd : data ≠ []) (h0 : 0 ≤ p) (h32 : p < 2 ^ 32) :
    make_checksum_array data p =
      .ok (data ++ offset_field p.toNat ++
        [xorBytes (data ++ offset_field p.toNat), 0x83]) := by
  have hN : (data ++ [(0x30 : Nat), 0x30, 0x30, 0x30, 0x30, 0x30]).length - 6 =
      data.length := by simp
  have hlen0 : data.length ≠ 0 := by
    intro h; exact hd (List.eq_nil_of_length_eq_zero h)
  simp only [make_checksum_array, hN, if_neg hlen0, struct_pack_I_ok p h0 h32,
    List.getD_cons_zero, List.getD_cons_succ]
  rw [set_append_right data _ data.length 0 (by omega),
    set_append_right data _ (data.length + 1) 1 (by omega),
    set_append_right data _ (data.length + 2) 2 (by omega),
    set_append_right data _ (data.length + 3) 3 (by omega)]
  simp only [List.set_cons_zero, List.set_cons_succ]
  rw [checksum_loop_eq]
  rw [List.take_append 4,
    set_append_right data _ (data.length + 4) 4 (by omega)]
  rw [set_append_right data _ (data.length + 5) 5 (by omega)]
  simp only [List.set_cons_zero, List.set_cons_succ, List.take_succ_cons,
    List.take_zero]
  simp [offset_field, List.append_assoc]

example : make_checksum_array [0x41, 0x42, 0x43] 0 =
    .ok [0x41, 0x42, 0x43, 0x00, 0x00, 0x00, 0x00, 0x40, 0x83] := by decide

example : make_checksum_array [0x41, 0x42, 0x43] 256 =
    .ok [0x41, 0x42, 0x43, 0x00, 0x01, 0x00, 0x00, 0x41, 0x83] := by decide

lemma natCast_lt_two_pow_32 {p : Nat} (hp : p < 2 ^ 32) :
    (p : Int) < 2 ^ 32 := by exact_mod_cast hp

lemma toNat_natCast (p : Nat) : ((p : Int)).toNat = p := Int.toNat_natCast p

/-- C1: for every non-empty chunk (1 ≤ N ≤ 1280 bytes) and offset in
[0, 2^32), the frame built by `make_checksum_array` has its byte at
position N+4 equal to the left-to-right XOR of the bytes at positions
0..N+3. -/
theorem claim_C1 (data : List Nat) (p : Nat)
    (h1 : 1 ≤ data.length) (h2 : data.length ≤ 1280) (hp : p < 2 ^ 32) :
    ∃ frame, make_checksum_array data (p : Int) = .ok frame ∧
      frame.getD (data.length + 4) 0 =
        xorBytes (frame.take (data.length + 4)) := by
  have hd : data ≠ [] := by
    intro h; subst h; simp at h1
  have hok := make_checksum_array_ok data (p : Int) hd
    (by exact_mod_cast Nat.zero_le p) (natCast_lt_two_pow_32 hp)
  rw [toNat_natCast] at hok
  refine ⟨_, hok, ?_⟩
  rw [List.append_assoc]
  rw [List.getD_append_right data _ 0 (data.length + 4) (by omega)]
  rw [List.take_append 4]
  simp [offset_field, List.getD_cons_succ, List.getD_cons_zero,
    List.append_assoc]

theorem claim_C1_witness :
    ∃ frame, make_checksum_array [0x41] (((0 : Nat) : Int)) = .ok frame ∧
      frame.getD ([0x41].length + 4) 0 =
        xorBytes (frame.take ([0x41].length + 4)) :=
  claim_C1 [0x41] 0 (by decide) (by decide) (by decide)

/-- C2: for every non-empty chunk of length N (1 ≤ N ≤ 1280) and offset in
[0, 2^32), the frame has total length N+6, its first N bytes equal the
payload, and its last byte (position N+5) is the fixed terminator 0x83. -/
theorem claim_C2 (data : List Nat) (p : Nat)
    (h1 : 1 ≤ data.length) (h2 : data.length ≤ 1280) (hp : p < 2 ^ 32) :
    ∃ frame, make_checksum_array data (p : Int) = .ok frame ∧
      frame.length = data.length + 6 ∧
      frame.take data.length = data ∧
      frame.getD (data.length + 5) 0 = 0x83 := by
  have hd : data ≠ [] := by
    intro h; subst h; simp at h1
  have hok := make_checksum_array_ok data (p : Int) hd
    (by exact_mod_cast Nat.zero_le p) (natCast_lt_two_pow_32 hp)
  rw [toNat_natCast] at hok
  refine ⟨_, hok, ?_, ?_, ?_⟩
  · simp [offset_field]
  · rw [List.append_assoc]
    have := @List.take_append Nat data
      (offset_field p ++ [xorBytes (data ++ offset_field p), 0x83]) 0
    simpa using this
  · rw [List.append_assoc]
    rw [List.getD_append_right data _ 0 (data.length + 5) (by omega)]
    simp [offset_field, List.getD_cons_succ, List.getD_cons_zero]

theorem claim_C2_witness :
    ∃ frame, make_checksum_array [0x41] (((0 : Nat) : Int)) = .ok frame ∧
      frame.length = [0x41].length + 6 ∧
      frame.take [0x41].length = [0x41] ∧
      frame.getD ([0x41].length + 5) 0 = 0x83 :=
  claim_C2 [0x41] 0 (by decide) (by decide) (by decide)

/-- C3: reversing the 4 frame bytes at positions N..N+3 and parsing the
result big-endian yields back the original offset (round-trip). -/
theorem claim_C3 (data : List Nat) (p : Nat)
    (h1 : 1 ≤ data.length) (hp : p < 2 ^ 32) :
    ∃ frame, make_checksum_array data (p : Int) = .ok frame ∧
      parse_be_u32 (((frame.drop data.length).take 4).reverse) = p := by
  have hd : data ≠ [] := by
    intro h; subst h; simp at h1
  have hok := make_checksum_array_ok data (p : Int) hd
    (by exact_mod_cast Nat.zero_le p) (natCast_lt_two_pow_32 hp)
  rw [toNat_natCast] at hok
  refine ⟨_, hok, ?_⟩
  rw [List.append_assoc, List.drop_left]
  have htake : ((offset_field p ++
      [xorBytes (data ++ offset_field p), 0x83]).take 4) = offset_field p := by
    simp [offset_field]
  rw [htake]
  show parse_be_u32 [p / 2 ^ 24 % 256, p / 2 ^ 16 % 256, p / 2 ^ 8 % 256,
    p % 256] = p
  show ((((0 * 256 + p / 2 ^ 24 % 256) * 256 + p / 2 ^ 16 % 256) * 256 +
    p / 2 ^ 8 % 256) * 256 + p % 256) = p
  omega

theorem claim_C3_witness :
    ∃ frame, make_checksum_array [0x41] (((256 : Nat) : Int)) = .ok frame ∧
      parse_be_u32 (((frame.drop [0x41].length).take 4).reverse) = 256 :=
  claim_C3 [0x41] 256 (by decide) (by decide)

/-- Recursion principle following the window loop: to prove a property of
every start position, prove it when the read at that position is empty,
and prove it at a position given it after the just-read window. -/
lemma windows_rec (file : List Nat) (motive : Nat → Prop)
    (base : ∀ pos, read_window file pos = [] → motive pos)
    (step : ∀ pos, read_window file pos ≠ [] →
      motive (pos + (read_window file pos).length) → motive pos) :
    ∀ pos, motive pos := by
  have H : ∀ n pos, file.length - pos ≤ n → motive pos := by
    intro n
    induction n with
    | zero =>
      intro pos hn
      by_cases h : read_window file pos = []
      · exact base pos h
      · exfalso
        apply h
        have hle : file.length ≤ pos := by omega
        simp [read_window, List.drop_eq_nil_of_le hle]
    | succ n ih =>
      intro pos hn
      by_cases h : read_window file pos = []
      · exact base pos h
      · refine step pos h (ih _ ?_)
        have h1 : pos < file.length := by
          by_contra hc
          push_neg at hc
          exact h (by simp [read_window, List.drop_eq_nil_of_le hc])
        have h2 : 1 ≤ (read_window file pos).length := List.length_pos.mpr h
        omega
  intro pos
  exact H (file.length - pos) pos le_rfl

lemma windows_nil {file : List Nat} {pos : Nat}
    (h : read_window file pos = []) : windows file pos = [] := by
  rw [windows, if_pos h]

lemma windows_cons {file : List Nat} {pos : Nat}
    (h : read_window file pos ≠ []) :
    windows file pos = (pos, read_window file pos) ::
      windows file (pos + (read_window file pos).length) := by
  rw [windows]
  simp only [if_neg h]

lemma read_window_length (file : List Nat) (pos : Nat) :
    (read_window file pos).length = min BUFFERSIZE (file.length - pos) := by
  simp [read_window]

/-- Offsets recorded by the read loop are cumulative: the i-th window's
offset is the start position plus the bytes consumed by the previous
windows. -/
lemma windows_cumulative (file : List Nat) : ∀ (pos i : Nat),
    i < (windows file pos).length →
      ((windows file pos).getD i (0, [])).1 =
        pos + (((windows file pos).take i).map (fun w => w.2.length)).sum := by
  refine windows_rec file _ ?_ ?_
  · intro x hchunk i h
    rw [windows_nil hchunk] at h
    simp at h
  · intro x hchunk ih i h
    rw [windows_cons hchunk] at h ⊢
    cases i with
    | zero => simp
    | succ j =>
      simp only [List.getD_cons_succ, List.take_succ_cons, List.map_cons,
        List.sum_cons]
      rw [ih j (by simpa using h)]
      omega

/-- Every window enumerated by the read loop carries a non-empty chunk and
the exact bytes of the file at its recorded offset. -/
lemma windows_mem (file : List Nat) : ∀ (pos : Nat) (w : Nat × List Nat),
    w ∈ windows file pos → w.2 = read_window file w.1 ∧ w.2 ≠ [] := by
  refine windows_rec file _ ?_ ?_
  · intro x hchunk w hw
    rw [windows_nil hchunk] at hw
    simp at hw
  · intro x hchunk ih w hw
    rw [windows_cons hchunk] at hw
    rcases List.mem_cons.mp hw with hw1 | hw1
    · subst hw1
      exact ⟨rfl, hchunk⟩
    · exact ih w hw1

lemma send_file_loop_nil (sender : List Nat → Int → Except PyError (List Nat))
    {file : List Nat} {pos : Nat} (h : read_window file pos = []) :
    send_file_loop sender file pos = .ok [] := by
  rw [send_file_loop, dif_pos h]

lemma send_file_loop_cons (sender : List Nat → Int → Except PyError (List Nat))
    {file : List Nat} {pos : Nat} (h : read_window file pos ≠ []) :
    send_file_loop sender file pos =
      match sender (read_window file pos) (pos : Int) with
      | .ok frame =>
        match send_file_loop sender file (pos + (read_window file pos).length) with
        | .ok rest => .ok ((pos, read_window file pos, .sent frame) :: rest)
        | .error e => .error e
      | .error .valueError =>
        match send_file_loop sender file (pos + (read_window file pos).length) with
        | .ok rest => .ok ((pos, read_window file pos, .skipped) :: rest)
        | .error e => .error e
      | .error .structError => .error .structError := by
  rw [send_file_loop]
  simp only [dif_neg h]

/-- Whenever the loop returns a trace, the attempted windows (offset and
chunk of each trace entry, in order) are exactly the read loop's windows,
whatever the per-chunk action did. -/
lemma send_file_loop_ok_windows
    (sender : List Nat → Int → Except PyError (List Nat)) (file : List Nat) :
    ∀ (pos : Nat) (tr : List (Nat × List Nat × WindowResult)),
      send_file_loop sender file pos = .ok tr →
      tr.map (fun w => (w.1, w.2.1)) = windows file pos := by
  refine windows_rec file _ ?_ ?_
  · intro x hchunk tr htr
    rw [send_file_loop_nil sender hchunk] at htr
    cases htr
    rw [windows_nil hchunk]
    rfl
  · intro x hchunk ih tr htr
    rw [send_file_loop_cons sender hchunk] at htr
    rw [windows_cons hchunk]
    rcases hs : sender (read_window file x) (x : Int) with e | frame
    · rcases e with _ | _
      · rw [hs] at htr
        rcases hrest : send_file_loop sender file
            (x + (read_window file x).length) with e2 | rest
        · rw [hrest] at htr; cases htr
        · rw [hrest] at htr
          cases htr
          simp only [List.map_cons]
          rw [ih rest hrest]
      · rw [hs] at htr; cases htr
    · rw [hs] at htr
      rcases hrest : send_file_loop sender file
          (x + (read_window file x).length) with e2 | rest
      · rw [hrest] at htr; cases htr
      · rw [hrest] at htr
        cases htr
        simp only [List.map_cons]
        rw [ih rest hrest]

/-- If the per-chunk action never raises anything but `ValueError`, the
loop always terminates normally with a full trace: every window is
attempted, failed windows are skipped, and the loop never aborts. -/
lemma send_file_loop_total
    (sender : List Nat → Int → Except PyError (List Nat))
    (hs : ∀ c p, sender c p ≠ .error .structError) (file : List Nat) :
    ∀ pos : Nat, ∃ tr, send_file_loop sender file pos = .ok tr := by
  refine windows_rec file _ ?_ ?_
  · intro x hchunk
    exact ⟨[], send_file_loop_nil sender hchunk⟩
  · intro x hchunk ih
    obtain ⟨rest, hrest⟩ := ih
    rcases hs2 : sender (read_window file x) (x : Int) with e | frame
    · rcases e with _ | _
      · refine ⟨(x, read_window file x, .skipped) :: rest, ?_⟩
        rw [send_file_loop_cons sender hchunk, hs2, hrest]
      · exact absurd hs2 (hs _ _)
    · refine ⟨(x, read_window file x, .sent frame) :: rest, ?_⟩
      rw [send_file_loop_cons sender hchunk, hs2, hrest]

lemma make_checksum_array_ne_valueError (c : List Nat) (p : Int)
    (hc : c ≠ []) : make_checksum_array c p ≠ .error .valueError := by
  have hlen0 : c.length ≠ 0 := by
    intro h; exact hc (List.eq_nil_of_length_eq_zero h)
  by_cases hp : 0 ≤ p ∧ p < 2 ^ 32
  · rw [make_checksum_array_ok c p hc hp.1 hp.2]
    simp
  · have hN : (c ++ [(0x30 : Nat), 0x30, 0x30, 0x30, 0x30, 0x30]).length - 6 =
        c.length := by simp
    have hsp : struct_pack_I p = .error .structError := by
      unfold struct_pack_I
      rw [if_neg hp]
    simp only [make_checksum_array, hN, if_neg hlen0, hsp]
    simp

lemma send_chunk_eq (c : List Nat) (p : Int) (hc : c ≠ []) :
    send_chunk c p = make_checksum_array c p := by
  have hlen0 : c.length ≠ 0 := by
    intro h; exact hc (List.eq_nil_of_length_eq_zero h)
  unfold send_chunk
  rw [if_neg hlen0]

lemma send_chunk_ok (c : List Nat) (p : Int) (hc : c ≠ [])
    (h0 : 0 ≤ p) (h32 : p < 2 ^ 32) :
    ∃ frame, send_chunk c p = .ok frame := by
  rw [send_chunk_eq c p hc, make_checksum_array_ok c p hc h0 h32]
  exact ⟨_, rfl⟩

/-- With the real `send_chunk` as per-chunk action, a normally completed
run never skips a window: no chunk is empty, so the `except ValueError`
handler never fires. -/
lemma send_file_loop_send_chunk_no_skip (file : List Nat) :
    ∀ (pos : Nat) (tr : List (Nat × List Nat × WindowResult)),
      send_file_loop send_chunk file pos = .ok tr →
      ∀ w ∈ tr, w.2.1 ≠ [] ∧ w.2.2 ≠ WindowResult.skipped := by
  refine windows_rec file _ ?_ ?_
  · intro x hchunk tr htr w hw
    rw [send_file_loop_nil send_chunk hchunk] at htr
    cases htr
    simp at hw
  · intro x hchunk ih tr htr w hw
    rw [send_file_loop_cons send_chunk hchunk] at htr
    rcases hs : send_chunk (read_window file x) (x : Int) with e | frame
    · rcases e with _ | _
      · rw [send_chunk_eq _ _ hchunk] at hs
        exact absurd hs (make_checksum_array_ne_valueError _ _ hchunk)
      · rw [hs] at htr; cases htr
    · rw [hs] at htr
      rcases hrest : send_file_loop send_chunk file
          (x + (read_window file x).length) with e2 | rest
      · rw [hrest] at htr; cases htr
      · rw [hrest] at htr
        cases htr
        rcases List.mem_cons.mp hw with hw1 | hw1
        · subst hw1
          exact ⟨hchunk, by simp⟩
        · exact ih rest hrest w hw1

/-- C4 as stated by the spec is FALSE: the frame for payload
[0x41, 0x42, 0x43] at offset 0 does not have checksum byte 0x43
(0x41 XOR 0x42 XOR 0x43 = 0x40, not 0x43). -/
theorem claim_C4_counterexample :
    make_checksum_array [0x41, 0x42, 0x43] 0 ≠
      .ok [0x41, 0x42, 0x43, 0x00, 0x00, 0x00, 0x00, 0x43, 0x83] := by decide

/-- C4 amended: the frame for payload [0x41, 0x42, 0x43] at offset 0 is
the 9-byte frame 41 42 43 00 00 00 00 40 83, with checksum byte 0x40. -/
theorem claim_C4 :
    make_checksum_array [0x41, 0x42, 0x43] 0 =
      .ok [0x41, 0x42, 0x43, 0x00, 0x00, 0x00, 0x00, 0x40, 0x83] := by decide

/-- C5: during `send_file`, the offset recorded for each window is the
cumulative byte count consumed by all prior windows (the file position
immediately before the window's bytes were read); and a 2600-byte file
with a 1280-byte window produces exactly 3 windows with offsets
0, 1280, 2560 and lengths 1280, 1280, 40, the loop stopping after the
third window because the next read is empty. -/
theorem claim_C5 :
    (∀ (file : List Nat) (tr : List (Nat × List Nat × WindowResult)),
        send_file file = .ok tr →
        ∀ i : Nat, i < tr.length →
          (tr.getD i (0, [], .skipped)).1 =
            ((tr.take i).map (fun w => w.2.1.length)).sum) ∧
    (∀ file : List Nat, file.length = 2600 →
        ∃ tr, send_file file = .ok tr ∧
          tr.map (fun w => (w.1, w.2.1.length)) =
            [(0, 1280), (1280, 1280), (2560, 40)]) := by
  constructor
  · intro file tr htr i hi
    have hmap := send_file_loop_ok_windows send_chunk file 0 tr htr
    have hlen : (windows file 0).length = tr.length := by
      rw [← hmap, List.length_map]
    have hiw : i < (windows file 0).length := by omega
    have hcum := windows_cumulative file 0 i hiw
    have hw : tr[i]? = some (tr.getD i (0, [], .skipped)) := by
      rw [List.getD_eq_getElem?_getD, List.getElem?_eq_getElem hi]
      rfl
    have hgetw : (windows file 0).getD i (0, []) =
        ((tr.getD i (0, [], .skipped)).1, (tr.getD i (0, [], .skipped)).2.1) := by
      rw [List.getD_eq_getElem?_getD, ← hmap, List.getElem?_map, hw]
      rfl
    have hsum : ((windows file 0).take i).map (fun w => w.2.length) =
        (tr.take i).map (fun w => w.2.1.length) := by
      rw [← hmap, ← List.map_take, List.map_map]
      rfl
    rw [hgetw, hsum] at hcum
    simpa using hcum
  · intro file hflen
    have hw0len : (read_window file 0).length = 1280 := by
      rw [read_window_length, hflen]; rfl
    have hw1len : (read_window file 1280).length = 1280 := by
      rw [read_window_length, hflen]; rfl
    have hw2len : (read_window file 2560).length = 40 := by
      rw [read_window_length, hflen]; rfl
    have hw0ne : read_window file 0 ≠ [] := by
      intro h; rw [h] at hw0len; simp at hw0len
    have hw1ne : read_window file 1280 ≠ [] := by
      intro h; rw [h] at hw1len; simp at hw1len
    have hw2ne : read_window file 2560 ≠ [] := by
      intro h; rw [h] at hw2len; simp at hw2len
    have hw3 : read_window file 2600 = [] := by
      simp [read_window, List.drop_eq_nil_of_le, hflen]
    obtain ⟨f1, hf1⟩ := send_chunk_ok (read_window file 0) ((0 : Nat) : Int)
      hw0ne (by simp) (by norm_num)
    obtain ⟨f2, hf2⟩ := send_chunk_ok (read_window file 1280) ((1280 : Nat) : Int)
      hw1ne (by simp) (by norm_num)
    obtain ⟨f3, hf3⟩ := send_chunk_ok (read_window file 2560) ((2560 : Nat) : Int)
      hw2ne (by simp) (by norm_num)
    have s3 : send_file_loop send_chunk file 2600 = .ok [] :=
      send_file_loop_nil send_chunk hw3
    have s2 : send_file_loop send_chunk file 2560 =
        .ok [(2560, read_window file 2560, .sent f3)] := by
      rw [send_file_loop_cons send_chunk hw2ne, hf3, hw2len]
      norm_num [s3]
    have s1 : send_file_loop send_chunk file 1280 =
        .ok [(1280, read_window file 1280, .sent f2),
          (2560, read_window file 2560, .sent f3)] := by
      rw [send_file_loop_cons send_chunk hw1ne, hf2, hw1len]
      norm_num [s2]
    have s0 : send_file_loop send_chunk file 0 =
        .ok [(0, read_window file 0, .sent f1),
          (1280, read_window file 1280, .sent f2),
          (2560, read_window file 2560, .sent f3)] := by
      rw [send_file_loop_cons send_chunk hw0ne, hf1, hw0len]
      norm_num [s1]
    refine ⟨_, s0, ?_⟩
    simp [hw0len, hw1len, hw2len]

/-- C6: a `ValueError` from a window's frame construction is caught: the
loop still attempts every window of the file, with unchanged absolute
offsets, whatever subset of windows fails with `ValueError`; in
particular, with the second of three windows of a 2600-byte file failing,
the third is still sent with offset 2560. -/
theorem claim_C6 :
    (∀ (sender : List Nat → Int → Except PyError (List Nat)),
        (∀ c p, sender c p ≠ .error .structError) →
        ∀ (file : List Nat) (pos : Nat),
          ∃ tr, send_file_loop sender file pos = .ok tr ∧
            tr.map (fun w => (w.1, w.2.1)) = windows file pos) ∧
    (∀ file : List Nat, file.length = 2600 →
        ∃ c1 c2 c3 f1 f3,
          send_file_loop failing_second_sender file 0 =
            .ok [(0, c1, .sent f1), (1280, c2, .skipped),
              (2560, c3, .sent f3)] ∧
          c1.length = 1280 ∧ c2.length = 1280 ∧ c3.length = 40) := by
  constructor
  · intro sender hs file pos
    obtain ⟨tr, htr⟩ := send_file_loop_total sender hs file pos
    exact ⟨tr, htr, send_file_loop_ok_windows sender file pos tr htr⟩
  · intro file hflen
    have hw0len : (read_window file 0).length = 1280 := by
      rw [read_window_length, hflen]; rfl
    have hw1len : (read_window file 1280).length = 1280 := by
      rw [read_window_length, hflen]; rfl
    have hw2len : (read_window file 2560).length = 40 := by
      rw [read_window_length, hflen]; rfl
    have hw0ne : read_window file 0 ≠ [] := by
      intro h; rw [h] at hw0len; simp at hw0len
    have hw1ne : read_window file 1280 ≠ [] := by
      intro h; rw [h] at hw1len; simp at hw1len
    have hw2ne : read_window file 2560 ≠ [] := by
      intro h; rw [h] at hw2len; simp at hw2len
    have hw3 : read_window file 2600 = [] := by
      simp [read_window, List.drop_eq_nil_of_le, hflen]
    obtain ⟨f1, hf1⟩ := send_chunk_ok (read_window file 0) ((0 : Nat) : Int)
      hw0ne (by simp) (by norm_num)
    obtain ⟨f3, hf3⟩ := send_chunk_ok (read_window file 2560) ((2560 : Nat) : Int)
      hw2ne (by simp) (by norm_num)
    have hfs0 : failing_second_sender (read_window file 0) ((0 : Nat) : Int) =
        .ok f1 := by
      unfold failing_second_sender
      rw [if_neg (by norm_num), hf1]
    have hfs1 : failing_second_sender (read_window file 1280)
        ((1280 : Nat) : Int) = .error .valueError := by
      unfold failing_second_sender
      rw [if_pos (by norm_num)]
    have hfs2 : failing_second_sender (read_window file 2560)
        ((2560 : Nat) : Int) = .ok f3 := by
      unfold failing_second_sender
      rw [if_neg (by norm_num), hf3]
    have s3 : send_file_loop failing_second_sender file 2600 = .ok [] :=
      send_file_loop_nil failing_second_sender hw3
    have s2 : send_file_loop failing_second_sender file 2560 =
        .ok [(2560, read_window file 2560, .sent f3)] := by
      rw [send_file_loop_cons failing_second_sender hw2ne, hfs2, hw2len]
      norm_num [s3]
    have s1 : send_file_loop failing_second_sender file 1280 =
        .ok [(1280, read_window file 1280, .skipped),
          (2560, read_window file 2560, .sent f3)] := by
      rw [send_file_loop_cons failing_second_sender hw1ne, hfs1, hw1len]
      norm_num [s2]
    have s0 : send_file_loop failing_second_sender file 0 =
        .ok [(0, read_window file 0, .sent f1),
          (1280, read_window file 1280, .skipped),
          (2560, read_window file 2560, .sent f3)] := by
      rw [send_file_loop_cons failing_second_sender hw0ne, hfs0, hw0len]
      norm_num [s1]
    exact ⟨_, _, _, _, _, s0, hw0len, hw1len, hw2len⟩

/-- C7: `send_chunk` on a zero-length chunk raises `ValueError` without
building a frame (the result is the error, not a frame); on any non-empty
chunk with an offset in [0, 2^32) no error is raised and a frame is
produced. -/
theorem claim_C7 :
    (∀ p : Int, send_chunk [] p = .error .valueError) ∧
    (∀ (chunk : List Nat) (p : Nat), chunk ≠ [] → p < 2 ^ 32 →
        ∃ frame, send_chunk chunk (p : Int) = .ok frame) := by
  constructor
  · intro p; rfl
  · intro chunk p hc hp
    exact send_chunk_ok chunk (p : Int) hc (Int.natCast_nonneg p)
      (natCast_lt_two_pow_32 hp)

theorem claim_C7_witness :
    send_chunk [] 0 = .error .valueError ∧
    ∃ frame, send_chunk [0x41] (((0 : Nat)) : Int) = .ok frame :=
  ⟨claim_C7.1 0, claim_C7.2 [0x41] 0 (by decide) (by decide)⟩

/-- C8: the invalid-chunk `ValueError` is unreachable in `send_file`:
every window the read loop enumerates carries a non-empty chunk (the loop
breaks on an empty read before framing), so `send_chunk` never raises
`ValueError` on it, and a completed run never contains a skipped
window. -/
theorem claim_C8 :
    (∀ (file : List Nat) (pos : Nat) (w : Nat × List Nat),
        w ∈ windows file pos →
          w.2 ≠ [] ∧ send_chunk w.2 (w.1 : Int) ≠ .error .valueError) ∧
    (∀ (file : List Nat) (tr : List (Nat × List Nat × WindowResult)),
        send_file file = .ok tr →
        ∀ w ∈ tr, w.2.1 ≠ [] ∧ w.2.2 ≠ WindowResult.skipped) := by
  constructor
  · intro file pos w hw
    have h := windows_mem file pos w hw
    refine ⟨h.2, ?_⟩
    rw [send_chunk_eq _ _ h.2]
    exact make_checksum_array_ne_valueError _ _ h.2
  · intro file tr htr
    exact send_file_loop_send_chunk_no_skip file 0 tr htr

lemma send_file_small_run :
    send_file [1, 2, 3] =
      .ok [(0, [1, 2, 3], .sent [1, 2, 3, 0, 0, 0, 0, 0, 0x83])] := by
  unfold send_file
  rw [send_file_loop_cons send_chunk (by decide)]
  rw [show send_chunk (read_window [1, 2, 3] 0) (((0 : Nat)) : Int) =
      .ok [1, 2, 3, 0, 0, 0, 0, 0, 0x83] from by decide]
  rw [show (0 : Nat) + (read_window [1, 2, 3] 0).length = 3 from by decide]
  rw [send_file_loop_nil send_chunk (by decide)]
  rfl

theorem claim_C8_witness :
    (([1, 2, 3] : List Nat) ≠ [] ∧
      send_chunk [1, 2, 3] (((0 : Nat)) : Int) ≠ .error .valueError) ∧
    (([1, 2, 3] : List Nat) ≠ [] ∧
      WindowResult.sent [1, 2, 3, 0, 0, 0, 0, 0, 0x83] ≠
        WindowResult.skipped) :=
  ⟨claim_C8.1 [1, 2, 3] 0 (0, [1, 2, 3])
      (by rw [windows_cons (by decide)]; exact List.mem_cons_self _ _),
    claim_C8.2 [1, 2, 3] _ send_file_small_run
      (0, [1, 2, 3], .sent [1, 2, 3, 0, 0, 0, 0, 0, 0x83])
      (List.mem_singleton.mpr rfl)⟩

theorem claim_C5_witness :
    (([(0, ([1, 2, 3] : List Nat),
        WindowResult.sent [1, 2, 3, 0, 0, 0, 0, 0, 0x83])].getD 0
        (0, [], .skipped)).1 =
      (([(0, ([1, 2, 3] : List Nat),
        WindowResult.sent [1, 2, 3, 0, 0, 0, 0, 0, 0x83])].take 0).map
        (fun w => w.2.1.length)).sum) ∧
    (∃ tr, send_file (List.replicate 2600 0) = .ok tr ∧
        tr.map (fun w => (w.1, w.2.1.length)) =
          [(0, 1280), (1280, 1280), (2560, 40)]) :=
  ⟨claim_C5.1 [1, 2, 3] _ send_file_small_run 0 (by decide),
    claim_C5.2 (List.replicate 2600 0) (by rw [List.length_replicate])⟩

theorem claim_C6_witness :
    (∃ tr, send_file_loop (fun _ _ => .error .valueError) [1, 2, 3] 0 =
        .ok tr ∧
      tr.map (fun w => (w.1, w.2.1)) = windows [1, 2, 3] 0) ∧
    (∃ c1 c2 c3 f1 f3,
        send_file_loop failing_second_sender (List.replicate 2600 0) 0 =
          .ok [(0, c1, .sent f1), (1280, c2, .skipped),
            (2560, c3, .sent f3)] ∧
        c1.length = 1280 ∧ c2.length = 1280 ∧ c3.length = 40) :=
  ⟨claim_C6.1 (fun _ _ => .error .valueError) (fun c p => by simp)
      [1, 2, 3] 0,
    claim_C6.2 (List.replicate 2600 0) (by rw [List.length_replicate])⟩

/-- C9: `send_command` always performs the prepare handshake first (send
the literal `M4001` payload, read one ack), and only then sends the
command payload verbatim, followed by reading one ack. -/
theorem claim_C9 (cmd : List Nat) :
    send_command_events cmd =
      [Event.send M4001_payload, Event.recv, Event.send cmd, Event.recv] :=
  rfl

/-- C10: an offset that does not fit in 32 bits unsigned makes
`make_checksum_array` (and hence `send_chunk`) fail with `struct.error`,
which is a different exception from the invalid-chunk `ValueError`; the
loop's `except ValueError` handler does not catch it, so the loop aborts
at that window and does not continue. -/
theorem claim_C10 :
    (∀ (chunk : List Nat) (p : Int), chunk ≠ [] → (p < 0 ∨ 2 ^ 32 ≤ p) →
        make_checksum_array chunk p = .error .structError ∧
        send_chunk chunk p = .error .structError) ∧
    (PyError.structError ≠ PyError.valueError) ∧
    (∀ (sender : List Nat → Int → Except PyError (List Nat))
        (file : List Nat) (pos : Nat),
        read_window file pos ≠ [] →
        sender (read_window file pos) (pos : Int) = .error .structError →
        send_file_loop sender file pos = .error .structError) := by
  refine ⟨?_, by decide, ?_⟩
  · intro chunk p hc hrange
    have hlen0 : chunk.length ≠ 0 := by
      intro h; exact hc (List.eq_nil_of_length_eq_zero h)
    have h2 : (2 : Int) ^ 32 = 4294967296 := by norm_num
    have hsp : struct_pack_I p = .error .structError := by
      unfold struct_pack_I
      rw [if_neg]
      rintro ⟨h0, h32⟩
      rw [h2] at h32
      rcases hrange with h | h
      · omega
      · rw [h2] at h; omega
    have hN : (chunk ++ [(0x30 : Nat), 0x30, 0x30, 0x30, 0x30, 0x30]).length
        - 6 = chunk.length := by simp
    have hmk : make_checksum_array chunk p = .error .structError := by
      simp only [make_checksum_array, hN, if_neg hlen0, hsp]
    exact ⟨hmk, by rw [send_chunk_eq _ _ hc]; exact hmk⟩
  · intro sender file pos hne hserr
    rw [send_file_loop_cons sender hne, hserr]

theorem claim_C10_witness :
    (make_checksum_array [0x41] ((2 : Int) ^ 32) = .error .structError ∧
      send_chunk [0x41] ((2 : Int) ^ 32) = .error .structError) ∧
    send_file_loop (fun _ _ => .error .structError) [1] 0 =
      .error .structError :=
  ⟨claim_C10.1 [0x41] ((2 : Int) ^ 32) (by decide) (Or.inr le_rfl),
    claim_C10.2.2 (fun _ _ => .error .structError) [1] 0 (by decide) rfl⟩

end FC3D
